import Mathlib

/-!
# Verification of the DroneCore mission transfer protocol engine

Shallow embedding of `src/plugins/mission/mission_impl.cpp` (the mission
plugin of the DroneCore subsystem): the user→wire and wire→user mission
item translators, the index map, and the engine state machine driven by
public operations, inbound MAVLink messages and timeouts.

MAVLink `float` fields are modelled as `Option ℚ`: `none` models NaN
(`std::isfinite` fails, comparisons with NaN are false), `some q` a finite
value, with exact rational arithmetic abstracting binary floating point.
Coordinates scaled by 1e7 are kept as exact rationals, abstracting the
int32 quantization of the wire format.
-/

namespace DroneCore

/-- A MAVLink float value: `none` models NaN, `some q` a finite value. -/
abbrev F := Option ℚ

/-- Mirrors `std::isfinite` on the modelled float. -/
def isFinite (x : F) : Bool := x.isSome

/-- Mirrors the C comparison `x > 0` on a float: false when x is NaN. -/
def gtZero : F → Bool
  | none => false
  | some q => decide (0 < q)

/-- Mirrors the C comparison `x < 0` on a float: false when x is NaN. -/
def ltZero : F → Bool
  | none => false
  | some q => decide (q < 0)

/-- Truncation of a rational toward zero, as the C cast `int(x)` does. -/
def truncQ (q : ℚ) : ℤ := if 0 ≤ q then ⌊q⌋ else ⌈q⌉

/-- Mirrors the C cast `int(x)` of a float. `int(NaN)` is undefined
behaviour in C; the model returns 0 there, and no verified path relies on
that arm. -/
def toIntC : F → ℤ
  | none => 0
  | some q => truncQ q

/-- The subset of `MAV_CMD` values the mission plugin reads or writes.
`other` stands for every other command id. -/
inductive Cmd
  | NAV_WAYPOINT
  | DO_CHANGE_SPEED
  | DO_MOUNT_CONTROL
  | NAV_LOITER_TIME
  | IMAGE_START_CAPTURE
  | IMAGE_STOP_CAPTURE
  | VIDEO_START_CAPTURE
  | VIDEO_STOP_CAPTURE
  | other
  deriving DecidableEq, Inhabited

/-- The subset of `MAV_FRAME` values the plugin uses; `other` stands for
any other frame arriving in a downloaded item. -/
inductive Frame
  | GLOBAL_RELATIVE_ALT_INT
  | MISSION
  | other
  deriving DecidableEq, Inhabited

/-- `MissionItem::CameraAction`. -/
inductive CameraAction
  | NONE
  | TAKE_PHOTO
  | START_PHOTO_INTERVAL
  | STOP_PHOTO_INTERVAL
  | START_VIDEO
  | STOP_VIDEO
  deriving DecidableEq, Inhabited

/-- `MAV_MOUNT_MODE_MAVLINK_TARGETING` (value 2 in common.xml). -/
def MAV_MOUNT_MODE_MAVLINK_TARGETING : ℤ := 2

/-- Modelled from the spec: `MissionItem` / `MissionItemImpl`
(mission_item.h and mission_item_impl.cpp are not under src/; spec §3
gives the fields, their optionality and the defaults: all optional fields
unset = NaN, `fly_through` defaults to true, camera action defaults to
NONE). `camera_photo_interval_s` is meaningful only for
START_PHOTO_INTERVAL; its default is 1. -/
structure MissionItem where
  latitude_deg : F := none
  longitude_deg : F := none
  relative_altitude_m : F := none
  fly_through : Bool := true
  speed_m_s : F := none
  gimbal_pitch_deg : F := none
  gimbal_yaw_deg : F := none
  loiter_time_s : F := none
  camera_action : CameraAction := CameraAction.NONE
  camera_photo_interval_s : ℚ := 1
  deriving DecidableEq, Inhabited

namespace MissionItem

/-- `MissionItemImpl::set_position(latitude_deg, longitude_deg)`. -/
def set_position (m : MissionItem) (lat lon : ℚ) : MissionItem :=
  { m with latitude_deg := some lat, longitude_deg := some lon }

/-- `MissionItemImpl::set_relative_altitude(float)`; the argument may be NaN. -/
def set_relative_altitude (m : MissionItem) (alt : F) : MissionItem :=
  { m with relative_altitude_m := alt }

/-- `MissionItemImpl::set_fly_through(bool)`. -/
def set_fly_through (m : MissionItem) (b : Bool) : MissionItem :=
  { m with fly_through := b }

/-- `MissionItemImpl::set_speed(float)`. -/
def set_speed (m : MissionItem) (v : F) : MissionItem :=
  { m with speed_m_s := v }

/-- `MissionItemImpl::set_gimbal_pitch_and_yaw(float, float)`. -/
def set_gimbal_pitch_and_yaw (m : MissionItem) (pitch yaw : F) : MissionItem :=
  { m with gimbal_pitch_deg := pitch, gimbal_yaw_deg := yaw }

/-- `MissionItemImpl::set_loiter_time(float)`. -/
def set_loiter_time (m : MissionItem) (t : F) : MissionItem :=
  { m with loiter_time_s := t }

/-- `MissionItemImpl::set_camera_action`. -/
def set_camera_action (m : MissionItem) (a : CameraAction) : MissionItem :=
  { m with camera_action := a }

/-- `MissionItemImpl::set_camera_photo_interval(double)`. -/
def set_camera_photo_interval (m : MissionItem) (s : ℚ) : MissionItem :=
  { m with camera_photo_interval_s := s }

/-- Modelled from the spec: `MissionItemImpl::is_position_finite` — the
position (latitude, longitude) is set together with the relative altitude
(spec §3: if position is set, altitude MUST also be set; §4.1 emits a
waypoint with z = relative_altitude exactly when the position is finite). -/
def is_position_finite (m : MissionItem) : Bool :=
  isFinite m.latitude_deg && isFinite m.longitude_deg &&
    isFinite m.relative_altitude_m

/-- Modelled from the spec: `MissionItemImpl::get_mavlink_x` — the wire x
coordinate, latitude × 1e7 (spec §4.1 step 1), kept as an exact rational
(the int32 quantization of the wire format is abstracted away). Unset
latitudes read as 0; every call site is guarded by `is_position_finite`. -/
def get_mavlink_x (m : MissionItem) : ℚ := m.latitude_deg.getD 0 * 10000000

/-- Modelled from the spec: `MissionItemImpl::get_mavlink_y` — longitude × 1e7. -/
def get_mavlink_y (m : MissionItem) : ℚ := m.longitude_deg.getD 0 * 10000000

/-- Modelled from the spec: `MissionItemImpl::get_mavlink_z` — the wire z
is the relative altitude (spec §4.1 step 1). -/
def get_mavlink_z (m : MissionItem) : F := m.relative_altitude_m

/-- Modelled from the spec: `MissionItemImpl::get_mavlink_frame` for a
waypoint — GLOBAL_RELATIVE_ALT_INT (spec §4.1 step 1). -/
def get_mavlink_frame (_ : MissionItem) : Frame := Frame.GLOBAL_RELATIVE_ALT_INT

/-- Modelled from the spec: `MissionItemImpl::get_mavlink_cmd` for a
waypoint — NAV_WAYPOINT (spec §4.1 step 1). -/
def get_mavlink_cmd (_ : MissionItem) : Cmd := Cmd.NAV_WAYPOINT

/-- Modelled from the spec: autocontinue = 1 for every emitted wire item
(spec §4.1). -/
def get_mavlink_autocontinue (_ : MissionItem) : ℕ := 1

/-- Modelled from the spec: `MissionItemImpl::get_mavlink_param1` for a
waypoint — 0 when fly_through, else positive (spec §4.1 step 1); the
positive constant is modelled as 1. -/
def get_mavlink_param1 (m : MissionItem) : F :=
  some (if m.fly_through then 0 else 1)

/-- Modelled from the spec: waypoint params 2–4 are not specified by the
spec and are never consulted by the reverse translation of a waypoint;
modelled as NaN. -/
def get_mavlink_param2 (_ : MissionItem) : F := none

/-- Modelled from the spec: see `get_mavlink_param2`. -/
def get_mavlink_param3 (_ : MissionItem) : F := none

/-- Modelled from the spec: see `get_mavlink_param2`. -/
def get_mavlink_param4 (_ : MissionItem) : F := none

end MissionItem

/-- A `mavlink_mission_item_int_t` as packed or decoded by the plugin.
The mission_type field is the constant MAV_MISSION_TYPE_MISSION on every
path and is omitted. -/
structure WireItem where
  seq : ℕ
  frame : Frame
  command : Cmd
  current : ℕ
  autocontinue : ℕ
  param1 : F
  param2 : F
  param3 : F
  param4 : F
  x : ℚ
  y : ℚ
  z : F
  deriving DecidableEq, Inhabited

/-- `std::map<int, int>::insert` on the sorted association list that
models `_mavlink_mission_item_to_mission_item_indices`: keeps keys
strictly ascending and does NOT overwrite an existing key. -/
def mapInsert (k v : ℤ) : List (ℤ × ℤ) → List (ℤ × ℤ)
  | [] => [(k, v)]
  | (k', v') :: rest =>
    if k < k' then (k, v) :: (k', v') :: rest
    else if k = k' then (k', v') :: rest
    else (k', v') :: mapInsert k v rest

/-- `std::map<int, int>::find`. -/
def mapFind : List (ℤ × ℤ) → ℤ → Option ℤ
  | [], _ => none
  | (k, v) :: rest, key => if k = key then some v else mapFind rest key

/-- The loop in `MissionImpl::set_current_mission_item_async` that scans
`_mavlink_mission_item_to_mission_item_indices` in iteration (key) order
and returns the first key whose value equals `current`; `-1` when none
does (the initial value of `mavlink_index`). -/
def findFirstIndex : List (ℤ × ℤ) → ℤ → ℤ
  | [], _ => -1
  | (k, v) :: rest, current => if v = current then k else findFirstIndex rest current

/-- State threaded through the loop of `MissionImpl::assemble_mavlink_messages`:
the messages vector (cleared on entry), the index map (NOT cleared on
entry — it survives from earlier translations), and the
`last_position_valid` / `last_frame` / `last_x` / `last_y` / `last_z`
locals. The `last_*` registers are uninitialized in the source until
`last_position_valid` is set; their defaults here are arbitrary and every
read is guarded by the flag. -/
structure AsmState where
  msgs : List WireItem := []
  idxMap : List (ℤ × ℤ) := []
  last_position_valid : Bool := false
  last_frame : Frame := Frame.GLOBAL_RELATIVE_ALT_INT
  last_x : ℚ := 0
  last_y : ℚ := 0
  last_z : F := none
  deriving DecidableEq, Inhabited

/-- One occurrence of the repeated push pattern in
`assemble_mavlink_messages`: compute `current` (1 exactly when the
messages vector is still empty), pack a message whose seq is the current
size of the vector, insert `(size, item_i)` into the index map (a
`std::map::insert`, which keeps an existing key's old value), and push
the message. -/
def emit (s : AsmState) (item_i : ℕ) (build : ℕ → ℕ → WireItem) : AsmState :=
  let current : ℕ := if s.msgs.length = 0 then 1 else 0
  { s with
    msgs := s.msgs ++ [build s.msgs.length current],
    idxMap := mapInsert (s.msgs.length : ℤ) (item_i : ℤ) s.idxMap }

/-- The MISSION_ITEM_INT packed for a waypoint (mission_impl.cpp:361-379). -/
def waypointMessage (m : MissionItem) (seq current : ℕ) : WireItem :=
  { seq := seq
    frame := m.get_mavlink_frame
    command := m.get_mavlink_cmd
    current := current
    autocontinue := m.get_mavlink_autocontinue
    param1 := m.get_mavlink_param1
    param2 := m.get_mavlink_param2
    param3 := m.get_mavlink_param3
    param4 := m.get_mavlink_param4
    x := m.get_mavlink_x
    y := m.get_mavlink_y
    z := m.get_mavlink_z }

/-- The MISSION_ITEM_INT packed for a speed change (mission_impl.cpp:402-420):
frame MISSION, DO_CHANGE_SPEED, param1 = 1 (ground speed), param2 = speed,
param3 = -1 (no throttle change), param4 = 0 (absolute), x = y = 0, z = NaN. -/
def speedMessage (m : MissionItem) (seq current : ℕ) : WireItem :=
  { seq := seq
    frame := Frame.MISSION
    command := Cmd.DO_CHANGE_SPEED
    current := current
    autocontinue := 1
    param1 := some 1
    param2 := m.speed_m_s
    param3 := some (-1)
    param4 := some 0
    x := 0
    y := 0
    z := none }

/-- The MISSION_ITEM_INT packed for a gimbal command (mission_impl.cpp:437-455):
frame MISSION, DO_MOUNT_CONTROL, param1 = pitch, param2 = 0 (roll),
param3 = yaw, param4 = NaN, x = y = 0, z = MAV_MOUNT_MODE_MAVLINK_TARGETING. -/
def gimbalMessage (m : MissionItem) (seq current : ℕ) : WireItem :=
  { seq := seq
    frame := Frame.MISSION
    command := Cmd.DO_MOUNT_CONTROL
    current := current
    autocontinue := 1
    param1 := m.gimbal_pitch_deg
    param2 := some 0
    param3 := m.gimbal_yaw_deg
    param4 := none
    x := 0
    y := 0
    z := some (MAV_MOUNT_MODE_MAVLINK_TARGETING : ℚ) }

/-- The MISSION_ITEM_INT packed for a loiter delay (mission_impl.cpp:479-497):
NAV_LOITER_TIME reusing the last valid frame/x/y/z, param1 = loiter time,
param2 = NaN, param3 = 0, param4 = 0. -/
def loiterMessage (m : MissionItem) (lastFrame : Frame) (lastX lastY : ℚ)
    (lastZ : F) (seq current : ℕ) : WireItem :=
  { seq := seq
    frame := lastFrame
    command := Cmd.NAV_LOITER_TIME
    current := current
    autocontinue := 1
    param1 := m.loiter_time_s
    param2 := none
    param3 := some 0
    param4 := some 0
    x := lastX
    y := lastY
    z := lastZ }

/-- The command id and params 1-3 chosen by the camera-action switch
(mission_impl.cpp:514-546). Locals before the switch: command = 0,
param1..3 = NaN. The NONE arm models the default branch of the switch,
unreachable because the whole block is guarded by action ≠ NONE; the
command local 0 is mapped to `Cmd.other`. -/
def cameraCommandParams (m : MissionItem) : Cmd × F × F × F :=
  match m.camera_action with
  | CameraAction.TAKE_PHOTO => (Cmd.IMAGE_START_CAPTURE, some 0, some 0, some 1)
  | CameraAction.START_PHOTO_INTERVAL =>
      (Cmd.IMAGE_START_CAPTURE, some 0, some m.camera_photo_interval_s, some 0)
  | CameraAction.STOP_PHOTO_INTERVAL => (Cmd.IMAGE_STOP_CAPTURE, some 0, none, none)
  | CameraAction.START_VIDEO => (Cmd.VIDEO_START_CAPTURE, some 0, none, none)
  | CameraAction.STOP_VIDEO => (Cmd.VIDEO_STOP_CAPTURE, some 0, none, none)
  | CameraAction.NONE => (Cmd.other, none, none, none)

/-- The MISSION_ITEM_INT packed for a camera action (mission_impl.cpp:548-566):
frame MISSION, command and params 1-3 from the switch, param4 = NaN,
x = y = 0, z = NaN. -/
def cameraMessage (m : MissionItem) (seq current : ℕ) : WireItem :=
  { seq := seq
    frame := Frame.MISSION
    command := (cameraCommandParams m).1
    current := current
    autocontinue := 1
    param1 := (cameraCommandParams m).2.1
    param2 := (cameraCommandParams m).2.2.1
    param3 := (cameraCommandParams m).2.2.2
    param4 := none
    x := 0
    y := 0
    z := none }

/-- The first if-block of the loop body of `assemble_mavlink_messages`
(mission_impl.cpp:357-391): when the position is finite, emit a waypoint
message and record the last valid frame/x/y/z. -/
def assembleWaypointStage (item_i : ℕ) (m : MissionItem) (s : AsmState) : AsmState :=
  if m.is_position_finite then
    { emit s item_i (waypointMessage m) with
      last_position_valid := true
      last_x := m.get_mavlink_x
      last_y := m.get_mavlink_y
      last_z := m.get_mavlink_z
      last_frame := m.get_mavlink_frame }
  else s

/-- The second if-block (mission_impl.cpp:393-426): emit a speed change
when the speed is finite. -/
def assembleSpeedStage (item_i : ℕ) (m : MissionItem) (s : AsmState) : AsmState :=
  if isFinite m.speed_m_s then emit s item_i (speedMessage m) else s

/-- The third if-block (mission_impl.cpp:428-461): emit a gimbal command
when the yaw or the pitch is finite. -/
def assembleGimbalStage (item_i : ℕ) (m : MissionItem) (s : AsmState) : AsmState :=
  if isFinite m.gimbal_yaw_deg || isFinite m.gimbal_pitch_deg then
    emit s item_i (gimbalMessage m)
  else s

/-- The fourth if-block (mission_impl.cpp:466-504): emit a loiter command
when the loiter time is finite, but only if a valid position exists;
without one the sub-item is dropped (a recoverable error). -/
def assembleLoiterStage (item_i : ℕ) (m : MissionItem) (s : AsmState) : AsmState :=
  if isFinite m.loiter_time_s then
    if !s.last_position_valid then s
    else emit s item_i (loiterMessage m s.last_frame s.last_x s.last_y s.last_z)
  else s

/-- The fifth if-block (mission_impl.cpp:506-572): emit a camera action
message when the camera action is not NONE. -/
def assembleCameraStage (item_i : ℕ) (m : MissionItem) (s : AsmState) : AsmState :=
  if m.camera_action ≠ CameraAction.NONE then emit s item_i (cameraMessage m) else s

/-- One iteration of the loop in `MissionImpl::assemble_mavlink_messages`
(mission_impl.cpp:353-575) over the user item at index `item_i`: the five
if-blocks in source order. -/
def assembleItem (item_i : ℕ) (m : MissionItem) (s0 : AsmState) : AsmState :=
  assembleCameraStage item_i m
    (assembleLoiterStage item_i m
      (assembleGimbalStage item_i m
        (assembleSpeedStage item_i m
          (assembleWaypointStage item_i m s0))))

/-- The loop of `assemble_mavlink_messages` from user index `item_i` on. -/
def assembleFrom (item_i : ℕ) : List MissionItem → AsmState → AsmState
  | [], s => s
  | m :: rest, s => assembleFrom (item_i + 1) rest (assembleItem item_i m s)

/-- `MissionImpl::assemble_mavlink_messages` (mission_impl.cpp:342-576):
clears `_mavlink_mission_item_messages` and re-translates
`_mission_items`; the index map `idxMap` passed in is the pre-existing
`_mavlink_mission_item_to_mission_item_indices`, which the source does
NOT clear. -/
def assemble_mavlink_messages (items : List MissionItem)
    (idxMap : List (ℤ × ℤ)) : AsmState :=
  assembleFrom 0 items { msgs := [], idxMap := idxMap }

/-- `Mission::Result`. -/
inductive MissionResult
  | SUCCESS
  | ERROR
  | TOO_MANY_MISSION_ITEMS
  | BUSY
  | TIMEOUT
  | INVALID_ARGUMENT
  | UNSUPPORTED
  | NO_MISSION_AVAILABLE
  | FAILED_TO_OPEN_QGC_PLAN
  | FAILED_TO_PARSE_QGC_PLAN
  deriving DecidableEq, Inhabited

/-- The loop of `MissionImpl::assemble_mission_items`
(mission_impl.cpp:602-673). `result` is the local `result` (which the
bad-params arm of DO_CHANGE_SPEED sets to UNSUPPORTED without breaking),
`acc` the `new_mission_item` accumulator, `done` the `_mission_items`
pushed so far. `break` arms return the triple immediately with result
UNSUPPORTED. -/
def assembleLoop (result : MissionResult) (acc : MissionItem)
    (have_set_position : Bool) (done : List MissionItem) :
    List WireItem → List MissionItem × MissionItem × MissionResult
  | [] => (done, acc, result)
  | it :: rest =>
    if it.command = Cmd.NAV_WAYPOINT then
      if it.frame ≠ Frame.GLOBAL_RELATIVE_ALT_INT then
        (done, acc, MissionResult.UNSUPPORTED)
      else
        let pushed : List MissionItem × MissionItem :=
          if have_set_position then (done ++ [acc], {}) else (done, acc)
        let acc2 :=
          (((pushed.2.set_position (it.x * (1 / 10000000))
              (it.y * (1 / 10000000))).set_relative_altitude
              it.z).set_fly_through (!gtZero it.param1))
        assembleLoop result acc2 true pushed.1 rest
    else if it.command = Cmd.DO_MOUNT_CONTROL then
      if toIntC it.z ≠ MAV_MOUNT_MODE_MAVLINK_TARGETING then
        (done, acc, MissionResult.UNSUPPORTED)
      else
        assembleLoop result (acc.set_gimbal_pitch_and_yaw it.param1 it.param3)
          have_set_position done rest
    else if it.command = Cmd.IMAGE_START_CAPTURE then
      if gtZero it.param2 && decide (toIntC it.param3 = 0) then
        assembleLoop result
          ((acc.set_camera_action
              CameraAction.START_PHOTO_INTERVAL).set_camera_photo_interval
            (it.param2.getD 0))
          have_set_position done rest
      else if decide (toIntC it.param2 = 0) && decide (toIntC it.param3 = 1) then
        assembleLoop result (acc.set_camera_action CameraAction.TAKE_PHOTO)
          have_set_position done rest
      else (done, acc, MissionResult.UNSUPPORTED)
    else if it.command = Cmd.IMAGE_STOP_CAPTURE then
      assembleLoop result (acc.set_camera_action CameraAction.STOP_PHOTO_INTERVAL)
        have_set_position done rest
    else if it.command = Cmd.VIDEO_START_CAPTURE then
      assembleLoop result (acc.set_camera_action CameraAction.START_VIDEO)
        have_set_position done rest
    else if it.command = Cmd.VIDEO_STOP_CAPTURE then
      assembleLoop result (acc.set_camera_action CameraAction.STOP_VIDEO)
        have_set_position done rest
    else if it.command = Cmd.DO_CHANGE_SPEED then
      if decide (toIntC it.param1 = 1) && ltZero it.param3 &&
          decide (toIntC it.param4 = 0) then
        assembleLoop result (acc.set_speed it.param2) have_set_position done rest
      else
        assembleLoop MissionResult.UNSUPPORTED acc have_set_position done rest
    else if it.command = Cmd.NAV_LOITER_TIME then
      assembleLoop result (acc.set_loiter_time it.param1) have_set_position done rest
    else (done, acc, MissionResult.UNSUPPORTED)

/-- The observable outcome of `MissionImpl::assemble_mission_items`.
`earlyReturn dead` models the two early `return` statements
(mission_impl.cpp:589-600): the local `result` was assigned `dead` but
the function returns before `report_mission_items_and_result` and before
`_activity = Activity::NONE` — no callback fires and the activity is left
unchanged (with `_mission_items` already cleared). `assembled r items`
models reaching the end of the function: `_mission_items` holds `items`,
`report_mission_items_and_result` runs with result `r`, and the activity
is set to NONE. -/
inductive DlOutcome
  | earlyReturn (dead : MissionResult)
  | assembled (result : MissionResult) (items : List MissionItem)
  deriving DecidableEq, Inhabited

/-- `MissionImpl::assemble_mission_items` (mission_impl.cpp:578-680):
clears `_mission_items`, rejects a non-empty download whose first item is
not a NAV_WAYPOINT (early return, UNSUPPORTED discarded), rejects an
empty download (early return, NO_MISSION_AVAILABLE discarded), otherwise
runs the translation loop and always pushes the final accumulator. -/
def assemble_mission_items (downloaded : List WireItem) : DlOutcome :=
  match downloaded with
  | [] => DlOutcome.earlyReturn MissionResult.NO_MISSION_AVAILABLE
  | first :: _ =>
    if first.command ≠ Cmd.NAV_WAYPOINT then
      DlOutcome.earlyReturn MissionResult.UNSUPPORTED
    else
      let t := assembleLoop MissionResult.SUCCESS {} false [] downloaded
      DlOutcome.assembled t.2.2 (t.1 ++ [t.2.1])

/-- `MissionImpl::Activity` (NONE is the idle state). -/
inductive Activity
  | NONE
  | SET_MISSION
  | GET_MISSION
  | SET_CURRENT
  | SEND_COMMAND
  deriving DecidableEq, Inhabited

/-- `MAV_MISSION_RESULT` codes the plugin reads or writes. -/
inductive AckCode
  | ACCEPTED
  | NO_SPACE
  | UNSUPPORTED
  | other
  deriving DecidableEq, Inhabited

/-- The two timeout deadline classes (RETRY_TIMEOUT_S and PROCESS_TIMEOUT_S). -/
inductive TimeoutKind
  | RETRY_TIMEOUT
  | PROCESS_TIMEOUT
  deriving DecidableEq, Inhabited

/-- A MAVLink message handed to `send_message` (source and target ids and
the constant mission_type omitted). -/
inductive MavMessage
  | mission_ack (code : AckCode)
  | mission_count (n : ℕ)
  | mission_request_int (seq : ℕ)
  | mission_request_list
  | mission_item_int (w : WireItem)
  | mission_set_current (seq : ℤ)
  deriving DecidableEq, Inhabited

/-- Observable effects of one engine transition. The three callback
channels are distinct members of `MissionImpl`: `request_result` /
`request_items_result` invoke the callback argument of the public call
itself, `stored_result` invokes `_result_callback`, `stored_items_result`
invokes `_mission_items_and_result_callback`, `command_result` invokes
the callback bound into `receive_command_result`. -/
inductive Output
  | sent (m : MavMessage)
  | request_result (r : MissionResult)
  | request_items_result (r : MissionResult) (items : List MissionItem)
  | stored_result (r : MissionResult)
  | stored_items_result (r : MissionResult) (items : List MissionItem)
  | command_result (r : MissionResult)
  | progress (current total : ℤ)
  | timeout_registered (k : TimeoutKind)
  | timeout_refreshed
  | timeout_unregistered
  | flight_mode_request (mission : Bool)
  deriving DecidableEq, Inhabited

/-- Engine configuration: `does_support_mission_int()`, whether
`send_message` succeeds, and the MAX_RETRIES constant (a tunable; the
header defining it is not under src/). -/
structure Env where
  supports_mission_int : Bool
  send_ok : Bool
  max_retries : ℕ
  deriving DecidableEq, Inhabited

/-- The mutable members of `MissionImpl` guarded by `_mutex`. Stored
callbacks are modelled by whether they are set (non-null); initial values
follow the spec (§3: progress counters start at −1). -/
structure EngineState where
  activity : Activity := Activity.NONE
  retries : ℕ := 0
  last_current_mavlink_mission_item : ℤ := -1
  last_reached_mavlink_mission_item : ℤ := -1
  num_mission_items_to_download : ℕ := 0
  next_mission_item_to_download : ℕ := 0
  mavlink_mission_items_downloaded : List WireItem := []
  mission_items : List MissionItem := []
  mavlink_mission_item_messages : List WireItem := []
  idx_map : List (ℤ × ℤ) := []
  result_callback_set : Bool := false
  items_callback_set : Bool := false
  progress_callback_set : Bool := false
  deriving DecidableEq, Inhabited

/-- `MissionImpl::is_mission_finished` (mission_impl.cpp:856-875). -/
def is_mission_finished (s : EngineState) : Bool :=
  if s.last_current_mavlink_mission_item < 0 then false
  else if s.last_reached_mavlink_mission_item < 0 then false
  else if s.mavlink_mission_item_messages.length = 0 then false
  else (s.last_reached_mavlink_mission_item + 1).toNat =
    s.mavlink_mission_item_messages.length

/-- `MissionImpl::total_mission_items` (mission_impl.cpp:899-902). -/
def total_mission_items (s : EngineState) : ℤ := s.mission_items.length

/-- `MissionImpl::current_mission_item` (mission_impl.cpp:877-897). -/
def current_mission_item (s : EngineState) : ℤ :=
  if is_mission_finished s then total_mission_items s
  else
    match mapFind s.idx_map s.last_current_mavlink_mission_item with
    | some v => v
    | none => -1

/-- `MissionImpl::report_progress` (mission_impl.cpp:828-835): nothing
when the progress callback is null. -/
def report_progress (s : EngineState) : List Output :=
  if !s.progress_callback_set then []
  else [Output.progress (current_mission_item s) (total_mission_items s)]

/-- `MissionImpl::report_mission_result` on `_result_callback`
(mission_impl.cpp:801-810): nothing when the stored callback is null. -/
def reportStored (s : EngineState) (r : MissionResult) : List Output :=
  if s.result_callback_set then [Output.stored_result r] else []

/-- `MissionImpl::report_mission_items_and_result` applied to the callback
argument of the public call (mission_impl.cpp:812-826); the call's own
callback is assumed non-null. When the result is not SUCCESS the function
clears `_mission_items` before invoking the callback. -/
def reportItemsRequest (s : EngineState) (r : MissionResult) :
    EngineState × List Output :=
  let s2 := if r ≠ MissionResult.SUCCESS then { s with mission_items := [] } else s
  (s2, [Output.request_items_result r s2.mission_items])

/-- `MissionImpl::report_mission_items_and_result` applied to
`_mission_items_and_result_callback` (mission_impl.cpp:812-826): the
null check precedes the clearing, so a null stored callback leaves
`_mission_items` untouched and produces no output. -/
def reportItemsStored (s : EngineState) (r : MissionResult) :
    EngineState × List Output :=
  if !s.items_callback_set then (s, [])
  else
    let s2 := if r ≠ MissionResult.SUCCESS then { s with mission_items := [] } else s
    (s2, [Output.stored_items_result r s2.mission_items])

/-- `MissionImpl::download_next_mission_item` (mission_impl.cpp:682-696):
sends REQUEST_INT for the next expected seq (the send result is ignored). -/
def download_next_mission_item (s : EngineState) : List Output :=
  [Output.sent (MavMessage.mission_request_int s.next_mission_item_to_download)]

/-- `MissionImpl::upload_mission_item` (mission_impl.cpp:779-788): an
out-of-range seq is logged and dropped, otherwise the cached message at
`seq` is sent. -/
def upload_mission_item (seq : ℕ) (s : EngineState) : List Output :=
  if s.mavlink_mission_item_messages.length ≤ seq then []
  else
    [Output.sent (MavMessage.mission_item_int
      (s.mavlink_mission_item_messages.getD seq default))]

/-- `MissionImpl::upload_mission_async` (mission_impl.cpp:264-306). -/
def upload_mission_async (env : Env) (items : List MissionItem)
    (s : EngineState) : EngineState × List Output :=
  if s.activity ≠ Activity.NONE then (s, [Output.request_result MissionResult.BUSY])
  else if !env.supports_mission_int then
    (s, [Output.request_result MissionResult.ERROR])
  else
    let s2 := { s with mission_items := items }
    let a := assemble_mavlink_messages s2.mission_items s2.idx_map
    let s3 := { s2 with mavlink_mission_item_messages := a.msgs, idx_map := a.idxMap }
    let countMsg := MavMessage.mission_count s3.mavlink_mission_item_messages.length
    if !env.send_ok then
      (s3, [Output.sent countMsg, Output.request_result MissionResult.ERROR])
    else
      ({ s3 with activity := Activity.SET_MISSION, result_callback_set := true },
       [Output.sent countMsg, Output.timeout_registered TimeoutKind.PROCESS_TIMEOUT])

/-- `MissionImpl::download_mission_async` (mission_impl.cpp:308-340). -/
def download_mission_async (env : Env) (s : EngineState) :
    EngineState × List Output :=
  if s.activity ≠ Activity.NONE then reportItemsRequest s MissionResult.BUSY
  else if !env.send_ok then
    let t := reportItemsRequest s MissionResult.ERROR
    (t.1, Output.sent MavMessage.mission_request_list :: t.2)
  else
    ({ s with
        mavlink_mission_items_downloaded := []
        activity := Activity.GET_MISSION
        retries := 0
        items_callback_set := true },
     [Output.sent MavMessage.mission_request_list,
      Output.timeout_registered TimeoutKind.RETRY_TIMEOUT])

/-- `MissionImpl::start_mission_async` (mission_impl.cpp:698-715). -/
def start_mission_async (s : EngineState) : EngineState × List Output :=
  if s.activity ≠ Activity.NONE then (s, [Output.request_result MissionResult.BUSY])
  else
    ({ s with activity := Activity.SEND_COMMAND, result_callback_set := true },
     [Output.flight_mode_request true])

/-- `MissionImpl::pause_mission_async` (mission_impl.cpp:717-734). -/
def pause_mission_async (s : EngineState) : EngineState × List Output :=
  if s.activity ≠ Activity.NONE then (s, [Output.request_result MissionResult.BUSY])
  else
    ({ s with activity := Activity.SEND_COMMAND, result_callback_set := true },
     [Output.flight_mode_request false])

/-- `MissionImpl::set_current_mission_item_async` (mission_impl.cpp:736-777). -/
def set_current_mission_item_async (env : Env) (current : ℤ)
    (s : EngineState) : EngineState × List Output :=
  if s.activity ≠ Activity.NONE then (s, [Output.request_result MissionResult.BUSY])
  else
    let mavlink_index := findFirstIndex s.idx_map current
    if mavlink_index < 0 then
      (s, [Output.request_result MissionResult.INVALID_ARGUMENT])
    else if !env.send_ok then
      (s, [Output.sent (MavMessage.mission_set_current mavlink_index),
           Output.request_result MissionResult.ERROR])
    else
      ({ s with activity := Activity.SET_CURRENT, result_callback_set := true },
       [Output.sent (MavMessage.mission_set_current mavlink_index)])

/-- `MissionImpl::process_mission_request` (mission_impl.cpp:67-85): nack
the legacy pull with ACK(UNSUPPORTED) and refresh the timeout. -/
def process_mission_request (s : EngineState) : EngineState × List Output :=
  (s, [Output.sent (MavMessage.mission_ack AckCode.UNSUPPORTED),
       Output.timeout_refreshed])

/-- `MissionImpl::process_mission_request_int` (mission_impl.cpp:87-112).
The addressing filter ignores the message only when BOTH the target
system and the target component differ from the GCS ids. -/
def process_mission_request_int (target_system_match target_component_match : Bool)
    (seq : ℕ) (s : EngineState) : EngineState × List Output :=
  if !target_system_match && !target_component_match then (s, [])
  else if s.activity ≠ Activity.SET_MISSION then (s, [])
  else
    let s2 := { s with retries := 0 }
    (s2, upload_mission_item seq s2 ++ [Output.timeout_refreshed])

/-- `MissionImpl::process_mission_ack` (mission_impl.cpp:114-155). Note:
only the ACCEPTED arm resets the activity; NO_SPACE and unknown codes
report through `_result_callback` and leave the activity SET_MISSION. -/
def process_mission_ack (target_system_match target_component_match : Bool)
    (code : AckCode) (s : EngineState) : EngineState × List Output :=
  if s.activity ≠ Activity.SET_MISSION then (s, [])
  else if !target_system_match && !target_component_match then (s, [])
  else if code = AckCode.ACCEPTED then
    let s2 := { s with
      last_current_mavlink_mission_item := -1
      last_reached_mavlink_mission_item := -1
      activity := Activity.NONE }
    (s2, Output.timeout_unregistered :: reportStored s2 MissionResult.SUCCESS)
  else if code = AckCode.NO_SPACE then
    (s, Output.timeout_unregistered ::
      reportStored s MissionResult.TOO_MANY_MISSION_ITEMS)
  else
    (s, Output.timeout_unregistered :: reportStored s MissionResult.ERROR)

/-- `MissionImpl::process_mission_current` (mission_impl.cpp:157-176). -/
def process_mission_current (seq : ℕ) (s : EngineState) :
    EngineState × List Output :=
  let t :=
    if s.last_current_mavlink_mission_item ≠ (seq : ℤ) then
      let s2 := { s with last_current_mavlink_mission_item := (seq : ℤ) }
      (s2, report_progress s2)
    else (s, ([] : List Output))
  let s2 := t.1
  if s2.activity = Activity.SET_CURRENT ∧
      s2.last_current_mavlink_mission_item = (seq : ℤ) then
    ({ s2 with
        last_current_mavlink_mission_item := -1
        activity := Activity.NONE },
     t.2 ++ reportStored s2 MissionResult.SUCCESS ++ [Output.timeout_unregistered])
  else (s2, t.2)

/-- `MissionImpl::process_mission_item_reached` (mission_impl.cpp:178-189):
unconditionally adopt the inbound seq when it differs. -/
def process_mission_item_reached (seq : ℕ) (s : EngineState) :
    EngineState × List Output :=
  if s.last_reached_mavlink_mission_item ≠ (seq : ℤ) then
    let s2 := { s with last_reached_mavlink_mission_item := (seq : ℤ) }
    (s2, report_progress s2)
  else (s, [])

/-- `MissionImpl::process_mission_count` (mission_impl.cpp:191-210). -/
def process_mission_count (n : ℕ) (s : EngineState) : EngineState × List Output :=
  if s.activity ≠ Activity.GET_MISSION then (s, [])
  else
    let s2 := { s with
      num_mission_items_to_download := n
      next_mission_item_to_download := 0 }
    (s2, [Output.timeout_unregistered,
          Output.timeout_registered TimeoutKind.RETRY_TIMEOUT] ++
      download_next_mission_item s2)

/-- `MissionImpl::process_mission_item_int` (mission_impl.cpp:212-262).
On completion the downloaded items are handed to
`assemble_mission_items`; its early-return outcomes leave the activity
unchanged and deliver nothing (with `_mission_items` cleared). -/
def process_mission_item_int (w : WireItem) (s : EngineState) :
    EngineState × List Output :=
  if w.seq = s.next_mission_item_to_download then
    let s2 := { s with
      mavlink_mission_items_downloaded := s.mavlink_mission_items_downloaded ++ [w]
      retries := 0 }
    if s2.next_mission_item_to_download + 1 = s2.num_mission_items_to_download then
      let outs := [Output.timeout_unregistered,
                   Output.sent (MavMessage.mission_ack AckCode.ACCEPTED)]
      match assemble_mission_items s2.mavlink_mission_items_downloaded with
      | DlOutcome.earlyReturn _ => ({ s2 with mission_items := [] }, outs)
      | DlOutcome.assembled r items =>
        let t := reportItemsStored { s2 with mission_items := items } r
        ({ t.1 with activity := Activity.NONE }, outs ++ t.2)
    else
      let s3 := { s2 with
        next_mission_item_to_download := s2.next_mission_item_to_download + 1 }
      (s3, Output.timeout_refreshed :: download_next_mission_item s3)
  else
    (s, Output.timeout_refreshed :: download_next_mission_item s)

/-- `MissionImpl::process_timeout` (mission_impl.cpp:909-935). While
GET_MISSION the source tests `_retries++ > MAX_RETRIES`: the OLD counter
value is compared, then incremented (and reset to 0 in the give-up arm);
the give-up arm reports TIMEOUT through `_result_callback`, not through
the download callback. -/
def process_timeout (env : Env) (s : EngineState) : EngineState × List Output :=
  if s.activity = Activity.SET_MISSION then
    ({ s with activity := Activity.NONE }, [])
  else if s.activity = Activity.GET_MISSION then
    if s.retries > env.max_retries then
      ({ s with activity := Activity.NONE, retries := 0 },
       reportStored s MissionResult.TIMEOUT)
    else
      ({ s with retries := s.retries + 1 },
       Output.timeout_registered TimeoutKind.RETRY_TIMEOUT ::
         download_next_mission_item s)
  else (s, [])

/-- `MissionImpl::receive_command_result` (mission_impl.cpp:837-854). -/
def receive_command_result (success : Bool) (s : EngineState) :
    EngineState × List Output :=
  let s2 := if s.activity = Activity.SEND_COMMAND
    then { s with activity := Activity.NONE } else s
  (s2, [Output.timeout_unregistered,
        Output.command_result
          (if success then MissionResult.SUCCESS else MissionResult.ERROR)])

/-- An input to the engine: a public operation invoked by the caller, an
inbound MAVLink message dispatched by the parent, a timer expiry, or the
completion of a flight-mode command. -/
inductive Event
  | upload_mission (items : List MissionItem)
  | download_mission
  | start_mission
  | pause_mission
  | set_current_mission_item (current : ℤ)
  | recv_request
  | recv_request_int (target_system_match target_component_match : Bool) (seq : ℕ)
  | recv_ack (target_system_match target_component_match : Bool) (code : AckCode)
  | recv_current (seq : ℕ)
  | recv_reached (seq : ℕ)
  | recv_count (n : ℕ)
  | recv_item_int (w : WireItem)
  | timeout
  | command_result_received (success : Bool)
  deriving DecidableEq, Inhabited

/-- One engine transition. -/
def step (env : Env) (s : EngineState) : Event → EngineState × List Output
  | Event.upload_mission items => upload_mission_async env items s
  | Event.download_mission => download_mission_async env s
  | Event.start_mission => start_mission_async s
  | Event.pause_mission => pause_mission_async s
  | Event.set_current_mission_item c => set_current_mission_item_async env c s
  | Event.recv_request => process_mission_request s
  | Event.recv_request_int ts tc seq => process_mission_request_int ts tc seq s
  | Event.recv_ack ts tc code => process_mission_ack ts tc code s
  | Event.recv_current seq => process_mission_current seq s
  | Event.recv_reached seq => process_mission_item_reached seq s
  | Event.recv_count n => process_mission_count n s
  | Event.recv_item_int w => process_mission_item_int w s
  | Event.timeout => process_timeout env s
  | Event.command_result_received ok => receive_command_result ok s

/-- Run a sequence of events, returning the final state. -/
def run (env : Env) (s : EngineState) : List Event → EngineState
  | [] => s
  | e :: es => run env (step env s e).1 es

/-- Run a sequence of events, collecting every output in order. -/
def runWithOutputs (env : Env) (s : EngineState) :
    List Event → EngineState × List Output
  | [] => (s, [])
  | e :: es =>
    let t := step env s e
    let t2 := runWithOutputs env t.1 es
    (t2.1, t.2 ++ t2.2)

/-- The successive values of `_last_reached_mavlink_mission_item` along a
run, starting with its value in `s`. -/
def lastReachedTrace (env : Env) (s : EngineState) : List Event → List ℤ
  | [] => [s.last_reached_mavlink_mission_item]
  | e :: es =>
    s.last_reached_mavlink_mission_item ::
      lastReachedTrace env (step env s e).1 es

/-- The five public operations of the engine. -/
def Event.isUserOp : Event → Bool
  | Event.upload_mission _ => true
  | Event.download_mission => true
  | Event.start_mission => true
  | Event.pause_mission => true
  | Event.set_current_mission_item _ => true
  | _ => false

/-- The outputs a public operation produces when rejected while busy. -/
def busyReply : Event → List Output
  | Event.download_mission => [Output.request_items_result MissionResult.BUSY []]
  | _ => [Output.request_result MissionResult.BUSY]

/-- Which public operation mutates the state on its BUSY path:
`download_mission_async` reports through
`report_mission_items_and_result`, which clears `_mission_items` for any
non-SUCCESS result. -/
def clearsItemsOnBusy : Event → Bool
  | Event.download_mission => true
  | _ => false

/-- The number of non-idle activities in a state: the activity is a
single register, so it is 0 or 1. -/
def nonIdleActivities (s : EngineState) : ℕ :=
  if s.activity = Activity.NONE then 0 else 1

/-- A user mission item that is a plain waypoint: finite position (with
altitude), and none of the speed, gimbal, loiter or camera sub-items. -/
def IsPlainWaypoint (m : MissionItem) : Prop :=
  m.latitude_deg.isSome = true ∧ m.longitude_deg.isSome = true ∧
  m.relative_altitude_m.isSome = true ∧ m.speed_m_s = none ∧
  m.gimbal_pitch_deg = none ∧ m.gimbal_yaw_deg = none ∧
  m.loiter_time_s = none ∧ m.camera_action = CameraAction.NONE

instance (m : MissionItem) : Decidable (IsPlainWaypoint m) := by
  unfold IsPlainWaypoint; infer_instance

/-- The projection under which the round-trip claim compares user items:
(position, relative altitude, fly_through). -/
def waypointView (m : MissionItem) : F × F × F × Bool :=
  (m.latitude_deg, m.longitude_deg, m.relative_altitude_m, m.fly_through)

/-- The wire items a list of plain waypoints translates to, starting at
wire seq `k`: one waypoint message each, current = 1 only at seq 0. -/
def plainWires : List MissionItem → ℕ → List WireItem
  | [], _ => []
  | m :: rest, k =>
    waypointMessage m k (if k = 0 then 1 else 0) :: plainWires rest (k + 1)

/-- The user item the download translator rebuilds from the waypoint wire
item of `m`: a fresh item with position x·1e-7 / y·1e-7, relative
altitude z, and fly_through from param1. -/
def reasmWaypoint (m : MissionItem) : MissionItem :=
  ((MissionItem.set_position {} (m.get_mavlink_x * (1 / 10000000))
      (m.get_mavlink_y * (1 / 10000000))).set_relative_altitude
      m.get_mavlink_z).set_fly_through (!gtZero m.get_mavlink_param1)

/-- The `_mission_items` content after `assemble_mission_items`: the
pushed list plus the final accumulator. -/
def loopItems (t : List MissionItem × MissionItem × MissionResult) :
    List MissionItem := t.1 ++ [t.2.1]

/-- The current flags of a message list, in order. -/
def currentFlags (l : List WireItem) : List ℕ := l.map fun w => w.current

/-- The expected current-flag pattern for n emitted messages: 1 on the
first, 0 on all others. -/
def currentsPattern : ℕ → List ℕ
  | 0 => []
  | n + 1 => 1 :: List.replicate n 0

/-- How many REQUEST_INT messages a list of outputs contains. -/
def countRequestIntSends (outs : List Output) : ℕ :=
  outs.countP fun o =>
    match o with
    | Output.sent (MavMessage.mission_request_int _) => true
    | _ => false

/-- Whether any output invokes the download callback
(`_mission_items_and_result_callback`). -/
def deliversToDownloadCallback (outs : List Output) : Bool :=
  outs.any fun o =>
    match o with
    | Output.stored_items_result _ _ => true
    | _ => false

/-- Whether any callback on any channel delivers the TIMEOUT result. -/
def deliversTimeoutResult (outs : List Output) : Bool :=
  outs.any fun o =>
    match o with
    | Output.stored_result MissionResult.TIMEOUT => true
    | Output.stored_items_result MissionResult.TIMEOUT _ => true
    | Output.request_result MissionResult.TIMEOUT => true
    | Output.request_items_result MissionResult.TIMEOUT _ => true
    | Output.command_result MissionResult.TIMEOUT => true
    | _ => false

/-- A sample waypoint item (fly-through). -/
def wp1 : MissionItem :=
  { latitude_deg := some 1, longitude_deg := some 2,
    relative_altitude_m := some 10 }

/-- A sample waypoint item (stop at waypoint). -/
def wp2 : MissionItem :=
  { latitude_deg := some 3, longitude_deg := some 4,
    relative_altitude_m := some 20, fly_through := false }

/-- A sample environment: mission-int supported, sends succeed,
MAX_RETRIES = 2. -/
def sampleEnv : Env :=
  { supports_mission_int := true, send_ok := true, max_retries := 2 }

/-- A download in which the vehicle announces one item and then goes
silent: the engine re-sends REQUEST_INT(0) on each short timeout. -/
def silentDownloadEvents : List Event :=
  [Event.download_mission, Event.recv_count 1, Event.timeout, Event.timeout,
   Event.timeout, Event.timeout]

end DroneCore
namespace DroneCore

/-- Any public operation invoked while the activity is not NONE replies
BUSY on its own callback; only `download_mission_async` mutates the state
(clearing `_mission_items` inside its reporting helper). -/
theorem busy_step (env : Env) (s : EngineState) (e : Event)
    (hop : e.isUserOp = true) (h : s.activity ≠ Activity.NONE) :
    (step env s e).2 = busyReply e ∧
    (step env s e).1 =
      (if clearsItemsOnBusy e then { s with mission_items := [] } else s) := by
  cases e <;> simp_all [Event.isUserOp, step, upload_mission_async,
    download_mission_async, start_mission_async, pause_mission_async,
    set_current_mission_item_async, reportItemsRequest, busyReply,
    clearsItemsOnBusy]

/-- A run consisting solely of public operations cannot leave a non-idle
activity. -/
theorem run_userOps_activity (env : Env) (s : EngineState) (es : List Event)
    (hes : ∀ x ∈ es, x.isUserOp = true) (h : s.activity ≠ Activity.NONE) :
    (run env s es).activity = s.activity := by
  induction es generalizing s with
  | nil => rfl
  | cons e rest ih =>
    have hb := busy_step env s e (hes e (by simp)) h
    have hact : (step env s e).1.activity = s.activity := by
      rw [hb.2]; split <;> rfl
    simp only [run]
    rw [ih (step env s e).1 (fun x hx => hes x (by simp [hx])), hact]
    rw [hact]; exact h

/-- Processing MISSION_ITEM_REACHED(seq) always leaves the reached
counter equal to seq. -/
theorem step_recv_reached_lastReached (env : Env) (s : EngineState) (a : ℕ) :
    (step env s (Event.recv_reached a)).1.last_reached_mavlink_mission_item =
      (a : ℤ) := by
  by_cases h : s.last_reached_mavlink_mission_item = (a : ℤ) <;>
    simp [step, process_mission_item_reached, h]

/-- The reached-counter trace of a pure REACHED run is the initial value
followed by the inbound seqs. -/
theorem lastReachedTrace_map (env : Env) (s : EngineState) (seqs : List ℕ) :
    lastReachedTrace env s (seqs.map Event.recv_reached) =
      s.last_reached_mavlink_mission_item :: seqs.map Int.ofNat := by
  induction seqs generalizing s with
  | nil => simp [lastReachedTrace]
  | cons a rest ih =>
    simp only [List.map_cons, lastReachedTrace]
    rw [ih, step_recv_reached_lastReached]
    simp

end DroneCore
namespace DroneCore

/-- An `emit` whose builder stores the computed current flag extends the
1-then-0 current pattern. -/
theorem currentFlags_emit (t : AsmState) (j : ℕ) (b : ℕ → ℕ → WireItem)
    (hb : ∀ q c, (b q c).current = c)
    (h : currentFlags t.msgs = currentsPattern t.msgs.length) :
    currentFlags (emit t j b).msgs = currentsPattern (emit t j b).msgs.length := by
  simp only [emit, currentFlags, List.map_append, List.length_append,
    List.map_cons, List.map_nil, List.length_cons, List.length_nil]
  rw [hb]
  cases hl : t.msgs.length with
  | zero =>
    have : t.msgs = [] := List.length_eq_zero.mp hl
    simp [this, currentsPattern]
  | succ k =>
    simp only [currentFlags] at h
    rw [h, hl]
    simp only [currentsPattern, Nat.succ_ne_zero, if_neg, if_false]
    have : (1 :: List.replicate k 0) ++ [0] = 1 :: List.replicate (k + 1) (0 : ℕ) := by
      simp [List.replicate_succ']
    simpa using this

/-- The waypoint stage preserves the current-flag pattern. -/
theorem currentFlags_waypointStage (i : ℕ) (m : MissionItem) (s : AsmState)
    (h : currentFlags s.msgs = currentsPattern s.msgs.length) :
    currentFlags (assembleWaypointStage i m s).msgs =
      currentsPattern (assembleWaypointStage i m s).msgs.length := by
  unfold assembleWaypointStage
  split
  · have hm : ({ emit s i (waypointMessage m) with
        last_position_valid := true, last_x := m.get_mavlink_x,
        last_y := m.get_mavlink_y, last_z := m.get_mavlink_z,
        last_frame := m.get_mavlink_frame } : AsmState).msgs =
        (emit s i (waypointMessage m)).msgs := rfl
    rw [hm]
    exact currentFlags_emit s i _ (fun q c => rfl) h
  · exact h

/-- The speed stage preserves the current-flag pattern. -/
theorem currentFlags_speedStage (i : ℕ) (m : MissionItem) (s : AsmState)
    (h : currentFlags s.msgs = currentsPattern s.msgs.length) :
    currentFlags (assembleSpeedStage i m s).msgs =
      currentsPattern (assembleSpeedStage i m s).msgs.length := by
  unfold assembleSpeedStage
  split
  · exact currentFlags_emit s i _ (fun q c => rfl) h
  · exact h

/-- The gimbal stage preserves the current-flag pattern. -/
theorem currentFlags_gimbalStage (i : ℕ) (m : MissionItem) (s : AsmState)
    (h : currentFlags s.msgs = currentsPattern s.msgs.length) :
    currentFlags (assembleGimbalStage i m s).msgs =
      currentsPattern (assembleGimbalStage i m s).msgs.length := by
  unfold assembleGimbalStage
  split
  · exact currentFlags_emit s i _ (fun q c => rfl) h
  · exact h

/-- The loiter stage preserves the current-flag pattern. -/
theorem currentFlags_loiterStage (i : ℕ) (m : MissionItem) (s : AsmState)
    (h : currentFlags s.msgs = currentsPattern s.msgs.length) :
    currentFlags (assembleLoiterStage i m s).msgs =
      currentsPattern (assembleLoiterStage i m s).msgs.length := by
  unfold assembleLoiterStage
  split
  · split
    · exact h
    · exact currentFlags_emit s i _ (fun q c => rfl) h
  · exact h

/-- The camera stage preserves the current-flag pattern. -/
theorem currentFlags_cameraStage (i : ℕ) (m : MissionItem) (s : AsmState)
    (h : currentFlags s.msgs = currentsPattern s.msgs.length) :
    currentFlags (assembleCameraStage i m s).msgs =
      currentsPattern (assembleCameraStage i m s).msgs.length := by
  unfold assembleCameraStage
  split
  · exact currentFlags_emit s i _ (fun q c => rfl) h
  · exact h

/-- Each loop iteration of `assemble_mavlink_messages` preserves the
current-flag pattern. -/
theorem currentFlags_assembleItem (i : ℕ) (m : MissionItem) (s : AsmState)
    (h : currentFlags s.msgs = currentsPattern s.msgs.length) :
    currentFlags (assembleItem i m s).msgs =
      currentsPattern (assembleItem i m s).msgs.length := by
  unfold assembleItem
  exact currentFlags_cameraStage i m _
    (currentFlags_loiterStage i m _
      (currentFlags_gimbalStage i m _
        (currentFlags_speedStage i m _
          (currentFlags_waypointStage i m s h))))

/-- The whole translation loop preserves the current-flag pattern. -/
theorem currentFlags_assembleFrom (us : List MissionItem) (i : ℕ) (s : AsmState)
    (h : currentFlags s.msgs = currentsPattern s.msgs.length) :
    currentFlags (assembleFrom i us s).msgs =
      currentsPattern (assembleFrom i us s).msgs.length := by
  induction us generalizing i s with
  | nil => exact h
  | cons m rest ih => exact ih (i + 1) _ (currentFlags_assembleItem i m s h)

/-- The messages assembled by a translation satisfy the current-flag
pattern. -/
theorem currentFlags_assemble (items : List MissionItem) (m0 : List (ℤ × ℤ)) :
    currentFlags (assemble_mavlink_messages items m0).msgs =
      currentsPattern (assemble_mavlink_messages items m0).msgs.length :=
  currentFlags_assembleFrom items 0 _ rfl

end DroneCore
namespace DroneCore

/-- For a plain waypoint, the loop body emits exactly one waypoint
message. -/
theorem assembleItem_plain (i : ℕ) (m : MissionItem) (s : AsmState)
    (h : IsPlainWaypoint m) :
    (assembleItem i m s).msgs =
      s.msgs ++ [waypointMessage m s.msgs.length
        (if s.msgs.length = 0 then 1 else 0)] := by
  obtain ⟨h1, h2, h3, h4, h5, h6, h7, h8⟩ := h
  simp [assembleItem, assembleWaypointStage, assembleSpeedStage,
    assembleGimbalStage, assembleLoiterStage, assembleCameraStage,
    MissionItem.is_position_finite, isFinite, h1, h2, h3, h4, h5, h6, h7, h8,
    emit]

/-- For plain waypoints the translation loop appends exactly the
waypoint messages, in order, with seqs continuing from the current
vector size. -/
theorem assembleFrom_plain (us : List MissionItem)
    (h : ∀ m ∈ us, IsPlainWaypoint m) (i : ℕ) (s : AsmState) :
    (assembleFrom i us s).msgs = s.msgs ++ plainWires us s.msgs.length := by
  induction us generalizing i s with
  | nil => simp [assembleFrom, plainWires]
  | cons m rest ih =>
    simp only [assembleFrom]
    rw [ih (fun x hx => h x (List.mem_cons_of_mem m hx)) (i + 1),
      assembleItem_plain i m s (h m (List.mem_cons_self m rest))]
    simp [plainWires]

/-- The messages of a translation of plain waypoints. -/
theorem assemble_plain_msgs (us : List MissionItem) (m0 : List (ℤ × ℤ))
    (h : ∀ m ∈ us, IsPlainWaypoint m) :
    (assemble_mavlink_messages us m0).msgs = plainWires us 0 := by
  unfold assemble_mavlink_messages
  rw [assembleFrom_plain us h 0]
  rfl

/-- One download-loop step over a waypoint wire item when the
accumulator already holds a position: push it and restart from the
rebuilt waypoint. -/
theorem assembleLoop_plain_cons (res : MissionResult) (acc : MissionItem)
    (done : List MissionItem) (m : MissionItem) (k : ℕ) (ws : List WireItem) :
    assembleLoop res acc true done
        (waypointMessage m k (if k = 0 then 1 else 0) :: ws) =
      assembleLoop res (reasmWaypoint m) true (done ++ [acc]) ws := rfl

/-- One download-loop step over a waypoint wire item with the fresh
accumulator and no position yet: rebuild the waypoint in place. -/
theorem assembleLoop_plain_cons_fresh (res : MissionResult)
    (done : List MissionItem) (m : MissionItem) (k : ℕ) (ws : List WireItem) :
    assembleLoop res {} false done
        (waypointMessage m k (if k = 0 then 1 else 0) :: ws) =
      assembleLoop res (reasmWaypoint m) true done ws := rfl

/-- Running the download loop over waypoint wires with the accumulator
already holding a position: pushes the accumulator, then rebuilds one
user item per wire. -/
theorem assembleLoop_plainWires_true (us : List MissionItem) (k : ℕ)
    (res : MissionResult) (acc : MissionItem) (done : List MissionItem) :
    loopItems (assembleLoop res acc true done (plainWires us k)) =
      done ++ acc :: us.map reasmWaypoint ∧
    (assembleLoop res acc true done (plainWires us k)).2.2 = res := by
  induction us generalizing k acc done with
  | nil => simp [plainWires, assembleLoop, loopItems]
  | cons m rest ih =>
    rw [plainWires, assembleLoop_plain_cons]
    have hstep := ih (k + 1) (reasmWaypoint m) (done ++ [acc])
    refine ⟨?_, hstep.2⟩
    rw [hstep.1]
    simp

/-- Running the download loop from the initial accumulator over the
waypoint wires of a non-empty plain-waypoint list rebuilds exactly one
user item per waypoint and keeps the result. -/
theorem assembleLoop_plainWires_start (us : List MissionItem) (hne : us ≠ [])
    (k : ℕ) (res : MissionResult) :
    loopItems (assembleLoop res {} false [] (plainWires us k)) =
      us.map reasmWaypoint ∧
    (assembleLoop res {} false [] (plainWires us k)).2.2 = res := by
  match us, hne with
  | m :: rest, _ =>
    rw [plainWires, assembleLoop_plain_cons_fresh]
    have hstep := assembleLoop_plainWires_true rest (k + 1) res
      (reasmWaypoint m) []
    refine ⟨?_, hstep.2⟩
    rw [hstep.1]
    simp

/-- Rebuilding a plain waypoint from its wire item restores position,
relative altitude and fly_through exactly. -/
theorem waypointView_reasm (m : MissionItem) (h : IsPlainWaypoint m) :
    waypointView (reasmWaypoint m) = waypointView m := by
  obtain ⟨h1, h2, h3, -, -, -, -, -⟩ := h
  obtain ⟨lat, hlat⟩ := Option.isSome_iff_exists.mp h1
  obtain ⟨lon, hlon⟩ := Option.isSome_iff_exists.mp h2
  have harith : ∀ q : ℚ, q * 10000000 * (1 / 10000000) = q := by
    intro q
    rw [mul_one_div, mul_div_cancel_right₀]
    norm_num
  have hfly : (!gtZero (m.get_mavlink_param1)) = m.fly_through := by
    unfold MissionItem.get_mavlink_param1
    cases m.fly_through <;> simp [gtZero]
  simp only [waypointView, reasmWaypoint, MissionItem.set_position,
    MissionItem.set_relative_altitude, MissionItem.set_fly_through,
    MissionItem.get_mavlink_x, MissionItem.get_mavlink_y,
    MissionItem.get_mavlink_z, hlat, hlon, Option.getD_some, harith, hfly]

end DroneCore
namespace DroneCore

/-- When no entry maps to `c`, the scan returns -1. -/
theorem findFirstIndex_none (m : List (ℤ × ℤ)) (c : ℤ)
    (h : ∀ p ∈ m, p.2 ≠ c) : findFirstIndex m c = -1 := by
  induction m with
  | nil => rfl
  | cons p rest ih =>
    have hp := h p (List.mem_cons_self p rest)
    simp only [findFirstIndex, if_neg hp]
    exact ih fun x hx => h x (List.mem_cons_of_mem p hx)

/-- On a key-sorted map containing an entry with value `c`, the scan
returns the smallest key among the entries with value `c`. -/
theorem findFirstIndex_min (m : List (ℤ × ℤ)) (c : ℤ)
    (hsorted : List.Pairwise (fun a b => a.1 < b.1) m) (k : ℤ)
    (hk : (k, c) ∈ m) :
    (findFirstIndex m c, c) ∈ m ∧
      ∀ j, (j, c) ∈ m → findFirstIndex m c ≤ j := by
  induction m with
  | nil => cases hk
  | cons p rest ih =>
    obtain ⟨hhead, htail⟩ := List.pairwise_cons.mp hsorted
    by_cases hp : p.2 = c
    · simp only [findFirstIndex, if_pos hp]
      constructor
      · have hpe : (p.1, c) = p := by rw [← hp]
        rw [hpe]
        exact List.mem_cons_self p rest
      · intro j hj
        rcases List.mem_cons.mp hj with hj | hj
        · have : p.1 = j := congrArg Prod.fst hj.symm
          omega
        · have := hhead _ hj
          simp only at this
          omega
    · simp only [findFirstIndex, if_neg hp]
      have hk2 : (k, c) ∈ rest := by
        rcases List.mem_cons.mp hk with hkk | hkk
        · exfalso
          exact hp (congrArg Prod.snd hkk.symm)
        · exact hkk
      obtain ⟨hmem, hmin⟩ := ih htail hk2
      refine ⟨List.mem_cons_of_mem p hmem, ?_⟩
      intro j hj
      rcases List.mem_cons.mp hj with hjj | hjj
      · exfalso
        exact hp (congrArg Prod.snd hjj.symm)
      · exact hmin j hjj

end DroneCore
namespace DroneCore

/-- Reducing `assemble_mission_items` on a download whose first item is a
waypoint: no early return, the loop runs over the whole list and the
final accumulator is pushed. -/
theorem assemble_mission_items_cons_waypoint (w : WireItem) (ws : List WireItem)
    (hcmd : w.command = Cmd.NAV_WAYPOINT) :
    assemble_mission_items (w :: ws) =
      DlOutcome.assembled
        ((assembleLoop MissionResult.SUCCESS {} false [] (w :: ws)).2.2)
        (loopItems (assembleLoop MissionResult.SUCCESS {} false [] (w :: ws))) := by
  unfold assemble_mission_items
  simp [hcmd, loopItems]

end DroneCore
namespace DroneCore

/-- C1 (counterexample): the claim's "leaves the engine state unchanged"
fails. After `upload_mission_async([wp1])` the engine is busy
(SET_MISSION) with `_mission_items = [wp1]`; a `download_mission_async`
issued now is answered BUSY, but its reporting helper clears
`_mission_items`, so the engine state changes. -/
theorem C1_counterexample :
    (step sampleEnv {} (Event.upload_mission [wp1])).1.activity ≠
      Activity.NONE ∧
    (step sampleEnv (step sampleEnv {} (Event.upload_mission [wp1])).1
        Event.download_mission).2 =
      [Output.request_items_result MissionResult.BUSY []] ∧
    (step sampleEnv (step sampleEnv {} (Event.upload_mission [wp1])).1
        Event.download_mission).1 ≠
      (step sampleEnv {} (Event.upload_mission [wp1])).1 := by
  decide

/-- C1 (amended): at most one activity is non-IDLE at any time (the
activity is a single register), and any public operation invoked while
the activity is not IDLE immediately delivers BUSY to its own callback
and leaves the activity unchanged; the state is otherwise unchanged,
except that `download_mission_async`'s BUSY reply clears the cached user
mission items (its reporting helper clears them for every non-SUCCESS
result). -/
theorem C1_busy_rejection (env : Env) (s : EngineState) (e : Event)
    (hop : e.isUserOp = true) (h : s.activity ≠ Activity.NONE) :
    nonIdleActivities (step env s e).1 ≤ 1 ∧
    (step env s e).2 = busyReply e ∧
    (step env s e).1.activity = s.activity ∧
    (step env s e).1 =
      (if clearsItemsOnBusy e then { s with mission_items := [] } else s) := by
  obtain ⟨h1, h2⟩ := busy_step env s e hop h
  refine ⟨?_, h1, ?_, h2⟩
  · unfold nonIdleActivities
    split <;> omega
  · rw [h2]
    split <;> rfl

/-- C1 (witness): a start request while an upload is active. -/
theorem C1_busy_rejection_witness :
    (Event.start_mission.isUserOp = true ∧
      ({ activity := Activity.SET_MISSION } : EngineState).activity ≠
        Activity.NONE) ∧
    (nonIdleActivities
        (step sampleEnv { activity := Activity.SET_MISSION }
          Event.start_mission).1 ≤ 1 ∧
      (step sampleEnv { activity := Activity.SET_MISSION }
          Event.start_mission).2 = busyReply Event.start_mission ∧
      (step sampleEnv { activity := Activity.SET_MISSION }
          Event.start_mission).1.activity =
        ({ activity := Activity.SET_MISSION } : EngineState).activity ∧
      (step sampleEnv { activity := Activity.SET_MISSION }
          Event.start_mission).1 =
        (if clearsItemsOnBusy Event.start_mission then
          { ({ activity := Activity.SET_MISSION } : EngineState) with
            mission_items := [] }
        else { activity := Activity.SET_MISSION })) :=
  ⟨⟨rfl, by decide⟩, C1_busy_rejection sampleEnv _ _ rfl (by decide)⟩

/-- C2 (code bug): `assemble_mavlink_messages` clears the messages
vector but never clears the index map, and `std::map::insert` keeps the
old value of an existing key. Translating [wp1, wp1] (map {0↦0, 1↦1})
and then translating [wp1] leaves N = 1 wire message but an index map
with 2 entries, whose entry (1, 1) has a key outside 0..N−1 and a value
outside 0..M−1 (M = 1). -/
theorem C2_stale_index_map :
    (assemble_mavlink_messages [wp1]
        (assemble_mavlink_messages [wp1, wp1] []).idxMap).msgs.length = 1 ∧
    (assemble_mavlink_messages [wp1]
        (assemble_mavlink_messages [wp1, wp1] []).idxMap).idxMap =
      [(0, 0), (1, 1)] := by
  decide

/-- C3 (counterexample): for the empty list of user items the claim
fails — the wire translation is empty and the reverse translation takes
the empty-download early return, producing no user item list at all
(rather than a list equal to the empty input). -/
theorem C3_counterexample :
    assemble_mission_items (assemble_mavlink_messages [] []).msgs =
      DlOutcome.earlyReturn MissionResult.NO_MISSION_AVAILABLE := rfl

/-- C3 (amended): for any NON-EMPTY list of user mission items
containing only waypoints with finite positions, translating to wire
items and back yields a user item list equal to the input under the
equality of (position, relative altitude, fly_through), with SUCCESS. -/
theorem C3_roundtrip (us : List MissionItem) (m0 : List (ℤ × ℤ))
    (hne : us ≠ []) (h : ∀ m ∈ us, IsPlainWaypoint m) :
    ∃ us2, assemble_mission_items (assemble_mavlink_messages us m0).msgs =
        DlOutcome.assembled MissionResult.SUCCESS us2 ∧
      us2.map waypointView = us.map waypointView := by
  refine ⟨us.map reasmWaypoint, ?_, ?_⟩
  · rw [assemble_plain_msgs us m0 h]
    match us, hne, h with
    | m :: rest, _, h =>
      have e1 : plainWires (m :: rest) 0 =
          waypointMessage m 0 (if 0 = 0 then 1 else 0) ::
            plainWires rest 1 := rfl
      rw [e1, assemble_mission_items_cons_waypoint _ _ rfl, ← e1]
      have hstart := assembleLoop_plainWires_start (m :: rest) (by simp) 0
        MissionResult.SUCCESS
      rw [hstart.1, hstart.2]
  · rw [List.map_map]
    exact List.map_congr_left fun m hm => waypointView_reasm m (h m hm)

/-- C3 (witness): two concrete waypoints round-trip. -/
theorem C3_roundtrip_witness :
    (([wp1, wp2] : List MissionItem) ≠ [] ∧
      ∀ m ∈ ([wp1, wp2] : List MissionItem), IsPlainWaypoint m) ∧
    (∃ us2, assemble_mission_items
          (assemble_mavlink_messages [wp1, wp2] []).msgs =
        DlOutcome.assembled MissionResult.SUCCESS us2 ∧
      us2.map waypointView = [wp1, wp2].map waypointView) :=
  ⟨⟨by decide, by decide⟩, C3_roundtrip [wp1, wp2] [] (by decide) (by decide)⟩

/-- C4 (code bug, evaluation at the failing input): with MAX_RETRIES = 2,
a download whose vehicle announces one item and then goes silent sees
REQUEST_INT sent 4 times (once from COUNT handling plus MAX_RETRIES + 1
= 3 timeout re-sends, not MAX_RETRIES = 2); after only 3 timeouts the
engine is still GET_MISSION (the claim expects TIMEOUT then); and when
it finally gives up, TIMEOUT goes to `_result_callback` — never set by a
download — so the download callback receives nothing and no TIMEOUT is
delivered on any channel. -/
theorem C4_retry_divergence :
    countRequestIntSends (runWithOutputs sampleEnv {} silentDownloadEvents).2 = 4 ∧
    (runWithOutputs sampleEnv {} silentDownloadEvents).1.activity =
      Activity.NONE ∧
    deliversToDownloadCallback
      (runWithOutputs sampleEnv {} silentDownloadEvents).2 = false ∧
    deliversTimeoutResult
      (runWithOutputs sampleEnv {} silentDownloadEvents).2 = false ∧
    (runWithOutputs sampleEnv {}
        (silentDownloadEvents.take 5)).1.activity = Activity.GET_MISSION := by
  decide

/-- C5 (code bug, evaluation at the failing input): translating an empty
downloaded collection assigns NO_MISSION_AVAILABLE to the local result
and then returns early — the download callback is never invoked and the
activity is not reset to IDLE. -/
theorem C5_empty_download_dropped :
    assemble_mission_items [] =
      DlOutcome.earlyReturn MissionResult.NO_MISSION_AVAILABLE := rfl

/-- C6 (counterexample): REACHED(5) followed by REACHED(3) drives
`last_reached_seq` from 5 down to 3 with no upload ack in between — the
trace −1, 5, 3 is not non-decreasing. -/
theorem C6_counterexample :
    lastReachedTrace sampleEnv {}
        [Event.recv_reached 5, Event.recv_reached 3] = [-1, 5, 3] ∧
    ¬ List.Chain' (fun a b : ℤ => a ≤ b) [-1, 5, 3] := by
  refine ⟨rfl, ?_⟩
  intro hc
  have h53 := (List.chain'_cons.mp (List.chain'_cons.mp hc).2).1
  omega

/-- C6 (amended): `last_reached_seq` mirrors the most recent REACHED
seq, so starting from the reset value −1 it is non-decreasing provided
the inbound REACHED seqs are non-decreasing; and an upload ACK(ACCEPTED)
resets it to −1. -/
theorem C6_reached_monotone (env : Env) (s : EngineState) (seqs : List ℕ)
    (hchain : List.Chain' (fun a b => a ≤ b) seqs)
    (h0 : s.last_reached_mavlink_mission_item = -1) :
    List.Chain' (fun a b : ℤ => a ≤ b)
      (lastReachedTrace env s (seqs.map Event.recv_reached)) ∧
    ∀ s2 : EngineState, s2.activity = Activity.SET_MISSION →
      (process_mission_ack true true AckCode.ACCEPTED
          s2).1.last_reached_mavlink_mission_item = -1 := by
  constructor
  · rw [lastReachedTrace_map, h0]
    apply List.chain'_cons'.mpr
    constructor
    · intro y hy
      rcases seqs with _ | ⟨a, rest⟩
      · simp at hy
      · simp only [List.map_cons, List.head?_cons, Option.mem_def,
          Option.some.injEq] at hy
        rw [← hy]
        simp [Int.ofNat]
        omega
    · apply List.chain'_map_of_chain' Int.ofNat
        (fun a b hab => Int.ofNat_le.mpr hab) hchain
  · intro s2 h2
    simp [process_mission_ack, h2]

/-- C6 (witness): a non-decreasing reached sequence from a fresh engine. -/
theorem C6_reached_monotone_witness :
    (List.Chain' (fun a b : ℕ => a ≤ b) [1, 2, 2, 5] ∧
      ({} : EngineState).last_reached_mavlink_mission_item = -1) ∧
    (List.Chain' (fun a b : ℤ => a ≤ b)
        (lastReachedTrace sampleEnv {}
          (([1, 2, 2, 5] : List ℕ).map Event.recv_reached)) ∧
      ∀ s2 : EngineState, s2.activity = Activity.SET_MISSION →
        (process_mission_ack true true AckCode.ACCEPTED
            s2).1.last_reached_mavlink_mission_item = -1) :=
  ⟨⟨by norm_num [List.chain'_cons], rfl⟩,
    C6_reached_monotone sampleEnv {} [1, 2, 2, 5]
      (by norm_num [List.chain'_cons]) rfl⟩

/-- C7: whenever a translation emits at least one wire item, the first
emitted item has current = 1 and every later one has current = 0,
whatever mix of sub-item kinds produced them. -/
theorem C7_current_flag_unique (items : List MissionItem)
    (m0 : List (ℤ × ℤ))
    (hne : (assemble_mavlink_messages items m0).msgs ≠ []) :
    ((assemble_mavlink_messages items m0).msgs.get
        ⟨0, List.length_pos.mpr hne⟩).current = 1 ∧
    ∀ i (hi : i < (assemble_mavlink_messages items m0).msgs.length), 0 < i →
      ((assemble_mavlink_messages items m0).msgs.get ⟨i, hi⟩).current = 0 := by
  have hp := currentFlags_assemble items m0
  have hpat : ∀ (n i : ℕ), i < n →
      (currentsPattern n)[i]? = some (if i = 0 then 1 else 0) := by
    intro n i hl
    match n, i with
    | n + 1, 0 => simp [currentsPattern]
    | n + 1, i + 1 =>
      have hj : i < n := by omega
      simp [currentsPattern, List.getElem?_replicate, hj]
  have key : ∀ i (hi : i < (assemble_mavlink_messages items m0).msgs.length),
      ((assemble_mavlink_messages items m0).msgs.get ⟨i, hi⟩).current =
        if i = 0 then 1 else 0 := by
    intro i hi
    have hmap : (currentFlags (assemble_mavlink_messages items m0).msgs)[i]? =
        some (((assemble_mavlink_messages items m0).msgs.get ⟨i, hi⟩).current) := by
      simp [currentFlags, List.getElem?_map, List.getElem?_eq_getElem hi]
    rw [hp, hpat _ i hi] at hmap
    simpa using hmap.symm
  refine ⟨?_, ?_⟩
  · have := key 0 (List.length_pos.mpr hne)
    simpa using this
  · intro i hi hpos
    have := key i hi
    rw [if_neg (by omega)] at this
    exact this

/-- C7 (witness): two waypoints. -/
theorem C7_current_flag_unique_witness :
    ((assemble_mavlink_messages [wp1, wp2] []).msgs ≠ [] ∧
      ((assemble_mavlink_messages [wp1, wp2] []).msgs.get
        ⟨0, List.length_pos.mpr (by decide)⟩).current = 1) ∧
    ∀ i (hi : i < (assemble_mavlink_messages [wp1, wp2] []).msgs.length),
      0 < i →
      ((assemble_mavlink_messages [wp1, wp2] []).msgs.get ⟨i, hi⟩).current = 0 :=
  ⟨⟨by decide, (C7_current_flag_unique [wp1, wp2] [] (by decide)).1⟩,
    (C7_current_flag_unique [wp1, wp2] [] (by decide)).2⟩

/-- C8: `is_mission_finished()` is true exactly when both progress
counters are non-negative, the cached wire item count is positive, and
last_reached_seq + 1 equals that count. -/
theorem C8_mission_finished_iff (s : EngineState) :
    is_mission_finished s = true ↔
      0 ≤ s.last_current_mavlink_mission_item ∧
      0 ≤ s.last_reached_mavlink_mission_item ∧
      0 < s.mavlink_mission_item_messages.length ∧
      s.last_reached_mavlink_mission_item + 1 =
        (s.mavlink_mission_item_messages.length : ℤ) := by
  unfold is_mission_finished
  split_ifs with h1 h2 h3 <;> simp [decide_eq_true_eq] <;> omega

/-- C9: `set_current_mission_item_async(u)` while IDLE either reports
INVALID_ARGUMENT without sending anything and without touching the
state (when no index-map entry maps to u), or sends MISSION_SET_CURRENT
for the smallest wire seq mapping to u and becomes SETTING_CURRENT. The
sortedness and non-negativity hypotheses are the `std::map` invariants
of the index map. -/
theorem C9_set_current (env : Env) (s : EngineState) (u : ℤ)
    (hidle : s.activity = Activity.NONE)
    (hsorted : List.Pairwise (fun a b => a.1 < b.1) s.idx_map)
    (hkeys : ∀ p ∈ s.idx_map, 0 ≤ p.1)
    (hsend : env.send_ok = true) :
    ((∀ p ∈ s.idx_map, p.2 ≠ u) →
      set_current_mission_item_async env u s =
        (s, [Output.request_result MissionResult.INVALID_ARGUMENT])) ∧
    (∀ k, (k, u) ∈ s.idx_map →
      (findFirstIndex s.idx_map u, u) ∈ s.idx_map ∧
      (∀ j, (j, u) ∈ s.idx_map → findFirstIndex s.idx_map u ≤ j) ∧
      (set_current_mission_item_async env u s).2 =
        [Output.sent
          (MavMessage.mission_set_current (findFirstIndex s.idx_map u))] ∧
      (set_current_mission_item_async env u s).1.activity =
        Activity.SET_CURRENT) := by
  constructor
  · intro hnone
    unfold set_current_mission_item_async
    rw [findFirstIndex_none s.idx_map u hnone]
    simp [hidle]
  · intro k hk
    obtain ⟨hmem, hmin⟩ := findFirstIndex_min s.idx_map u hsorted k hk
    have hge : (0 : ℤ) ≤ findFirstIndex s.idx_map u := hkeys _ hmem
    have hnlt : ¬ findFirstIndex s.idx_map u < 0 := by omega
    refine ⟨hmem, hmin, ?_, ?_⟩ <;>
      simp [set_current_mission_item_async, hidle, hsend, hnlt]

/-- C9 (witness): index map {0↦0, 1↦0, 2↦1}; requesting user item 0
selects wire seq 0, and requesting user item 7 is invalid. -/
theorem C9_set_current_witness :
    (({ idx_map := [(0, 0), (1, 0), (2, 1)] } : EngineState).activity =
        Activity.NONE ∧ sampleEnv.send_ok = true) ∧
    ((∀ p ∈ ({ idx_map := [(0, 0), (1, 0), (2, 1)] } :
          EngineState).idx_map, p.2 ≠ (0 : ℤ)) →
      set_current_mission_item_async sampleEnv 0
          { idx_map := [(0, 0), (1, 0), (2, 1)] } =
        ({ idx_map := [(0, 0), (1, 0), (2, 1)] },
          [Output.request_result MissionResult.INVALID_ARGUMENT])) ∧
    (∀ k, (k, (0 : ℤ)) ∈ ({ idx_map := [(0, 0), (1, 0), (2, 1)] } :
          EngineState).idx_map →
      (findFirstIndex [(0, 0), (1, 0), (2, 1)] 0, (0 : ℤ)) ∈
        ([(0, 0), (1, 0), (2, 1)] : List (ℤ × ℤ)) ∧
      (∀ j, (j, (0 : ℤ)) ∈ ([(0, 0), (1, 0), (2, 1)] : List (ℤ × ℤ)) →
        findFirstIndex [(0, 0), (1, 0), (2, 1)] 0 ≤ j) ∧
      (set_current_mission_item_async sampleEnv 0
          { idx_map := [(0, 0), (1, 0), (2, 1)] }).2 =
        [Output.sent (MavMessage.mission_set_current
          (findFirstIndex [(0, 0), (1, 0), (2, 1)] 0))] ∧
      (set_current_mission_item_async sampleEnv 0
          { idx_map := [(0, 0), (1, 0), (2, 1)] }).1.activity =
        Activity.SET_CURRENT) :=
  ⟨⟨rfl, rfl⟩, C9_set_current sampleEnv _ 0 rfl (by decide) (by decide) rfl⟩

/-- C10: a MISSION_ACK with any non-ACCEPTED code during an upload
reports the error result through the stored result callback
(TOO_MANY_MISSION_ITEMS for NO_SPACE, ERROR for every other code) but
leaves the activity SET_MISSION, so every subsequent public operation —
after any number of further public operations — still receives BUSY. -/
theorem C10_stuck_after_nack (env : Env) (s : EngineState) (code : AckCode)
    (hcode : code ≠ AckCode.ACCEPTED)
    (h : s.activity = Activity.SET_MISSION)
    (hcb : s.result_callback_set = true) :
    (process_mission_ack true true code s).2 =
      [Output.timeout_unregistered,
       Output.stored_result
         (if code = AckCode.NO_SPACE then MissionResult.TOO_MANY_MISSION_ITEMS
          else MissionResult.ERROR)] ∧
    (process_mission_ack true true code s).1.activity =
      Activity.SET_MISSION ∧
    ∀ (es : List Event) (e : Event), (∀ x ∈ es, x.isUserOp = true) →
      e.isUserOp = true →
      (step env (run env (process_mission_ack true true code s).1
        es) e).2 = busyReply e := by
  have hstate : (process_mission_ack true true code s).1 = s := by
    by_cases hns : code = AckCode.NO_SPACE <;>
      simp [process_mission_ack, h, hcode, hns]
  refine ⟨?_, ?_, ?_⟩
  · by_cases hns : code = AckCode.NO_SPACE <;>
      simp [process_mission_ack, h, hcode, hns, reportStored, hcb]
  · rw [hstate]
    exact h
  · intro es e hes he
    rw [hstate]
    have hne : s.activity ≠ Activity.NONE := by
      rw [h]
      simp
    have hact := run_userOps_activity env s es hes hne
    exact (busy_step env _ e he (by rw [hact, h]; simp)).1

/-- C10 (witness): concrete busy-forever scenario for the unknown-code
arm (ACK code UNSUPPORTED, reported as ERROR). -/
theorem C10_stuck_after_nack_witness :
    (AckCode.UNSUPPORTED ≠ AckCode.ACCEPTED ∧
      ({ activity := Activity.SET_MISSION, result_callback_set := true } :
        EngineState).activity = Activity.SET_MISSION ∧
      ({ activity := Activity.SET_MISSION, result_callback_set := true } :
        EngineState).result_callback_set = true) ∧
    ((process_mission_ack true true AckCode.UNSUPPORTED
        { activity := Activity.SET_MISSION, result_callback_set := true }).2 =
      [Output.timeout_unregistered,
       Output.stored_result
         (if AckCode.UNSUPPORTED = AckCode.NO_SPACE then
           MissionResult.TOO_MANY_MISSION_ITEMS
          else MissionResult.ERROR)] ∧
    (process_mission_ack true true AckCode.UNSUPPORTED
        { activity := Activity.SET_MISSION,
          result_callback_set := true }).1.activity = Activity.SET_MISSION ∧
    ∀ (es : List Event) (e : Event), (∀ x ∈ es, x.isUserOp = true) →
      e.isUserOp = true →
      (step sampleEnv (run sampleEnv
        (process_mission_ack true true AckCode.UNSUPPORTED
          { activity := Activity.SET_MISSION,
            result_callback_set := true }).1 es) e).2 = busyReply e) :=
  ⟨⟨by decide, rfl, rfl⟩,
    C10_stuck_after_nack sampleEnv _ AckCode.UNSUPPORTED (by decide) rfl rfl⟩

end DroneCore
